import Mathlib

/-!
Shallow embedding of the request-proxying Service Worker subsystem of the
bshorts repository (src/public/miniapp-service-worker.js), its page-side
relay (src/src/composables/sdkService.ts), and the URL-rewrite helper
(src/src/helpers/urlRewriter.ts), together with theorems settling the
frozen claims about this subsystem.

Conventions of the embedding:
- JavaScript strings are Lean `String`s; `s.includes(pat)` becomes
  `strIncludes s pat` (infix-of on the character lists).
- A JavaScript promise that the worker holds for an intercepted fetch is
  modelled by a `PromiseState`: `pending`, or settled with a `Response`
  value or an error message.  Settling an already-settled promise is a
  no-op, exactly as in JavaScript.
- The worker's `pendingRequests` `Map` stores, per `requestId`, the
  resolve/reject callbacks of that request's promise.  We model the key
  set as a membership function `inMap : String → Bool` and the promise of
  each `requestId` as `promise : String → PromiseState`; `Map.set`,
  `Map.get`/`has` and `Map.delete` become pointwise updates and lookups.
- Browser effects (postMessage targets, registration attempts, whether the
  cross-origin parent URL is readable) are passed in as explicit values.
-/

namespace Bshorts

/-- JavaScript `s.includes(pat)`: `pat` occurs as a contiguous substring of
`s`. -/
def strIncludes (s pat : String) : Bool :=
  decide (pat.toList <:+: s.toList)

/-- JavaScript `s.startsWith(pre)` on the character sequence. -/
def jsStartsWith (s pre : String) : Bool :=
  decide (pre.toList <+: s.toList)

/-- JavaScript `s.endsWith(suf)` on the character sequence. -/
def jsEndsWith (s suf : String) : Bool :=
  decide (suf.toList <:+ s.toList)

/-- Worker of `jsSplit`: scan the characters, cutting at each occurrence of
the (non-empty) separator.  `fuel` bounds the recursion; every step consumes
at least one character, so `fuel = length` never runs out. -/
def jsSplitGo (sep : List Char) : Nat → List Char → List Char → List (List Char)
  | _, [], acc => [acc.reverse]
  | 0, l, acc => [acc.reverse ++ l]
  | fuel + 1, c :: rest, acc =>
    if sep <+: c :: rest then
      acc.reverse :: jsSplitGo sep fuel ((c :: rest).drop sep.length) []
    else
      jsSplitGo sep fuel rest (c :: acc)

/-- JavaScript `s.split(sep)` for a non-empty separator: the maximal list
of chunks between non-overlapping left-to-right occurrences of `sep`,
keeping empty chunks (e.g. `"a..b".split(".") = ["a", "", "b"]`). -/
def jsSplit (s sep : String) : List String :=
  (jsSplitGo sep.toList s.toList.length s.toList []).map String.mk

/-- JavaScript `Number.parseInt` on a string, restricted to what the code
needs: the longest leading digit run, or `none` (NaN) when the string does
not start with a digit.  A NaN compares false against every number. -/
def jsParseInt (s : String) : Option Nat :=
  let digits := s.toList.takeWhile Char.isDigit
  if digits.isEmpty then none
  else some (digits.foldl (fun a c => a * 10 + (c.toNat - 48)) 0)

/-- NaN-aware `parseInt(s) > n`: false when `parseInt` yields NaN. -/
def jsParseIntGt (s : String) (n : Nat) : Bool :=
  match jsParseInt s with
  | some v => n < v
  | none => false

/-! ## Data carried by the message protocol -/

/-- The `data` field of a `FETCH_RESPONSE` message: body bytes, status,
status text and header map of the host-performed fetch. -/
structure ResponseData where
  body : List Nat
  status : Nat
  statusText : String
  headers : List (String × String)
  deriving DecidableEq, Repr

/-- The observable content of the `Response` the worker reconstructs:
`new Response(new Uint8Array(data.body), { status, statusText, headers })`. -/
structure Response where
  bodyBytes : List Nat
  status : Nat
  statusText : String
  headers : List (String × String)
  deriving DecidableEq, Repr

/-- The reconstruction `new Response(new Uint8Array(data.body),
{ status: data.status, statusText: data.statusText,
headers: data.headers })` from the `FETCH_RESPONSE` handler. -/
def responseFromData (d : ResponseData) : Response :=
  { bodyBytes := d.body
  , status := d.status
  , statusText := d.statusText
  , headers := d.headers }

/-- A `FETCH_RESPONSE` message as destructured by the worker's message
listener: `const { requestId, success, data, error } = event.data`. -/
structure FetchResponseMsg where
  type : String
  requestId : String
  success : Bool
  data : ResponseData
  error : String
  deriving DecidableEq, Repr

/-- An intercepted request as the worker reads it: url, method, header
entries, and the bytes `await request.arrayBuffer()` would produce. -/
structure Request where
  url : String
  method : String
  headers : List (String × String)
  bodyBytes : List Nat
  deriving DecidableEq, Repr

/-- The serialized `FETCH_REQUEST` message built in `handleRequest`. -/
structure FetchRequestMsg where
  type : String
  requestId : String
  url : String
  method : String
  headers : List (String × String)
  body : Option (List Nat)
  deriving DecidableEq, Repr

/-- The serialization step of `handleRequest`:
`body = request.method !== 'GET' && request.method !== 'HEAD'
  ? Array.from(new Uint8Array(await request.arrayBuffer())) : null`
and the `message` object literal. -/
def serializeRequest (requestId : String) (req : Request) : FetchRequestMsg :=
  { type := "FETCH_REQUEST"
  , requestId := requestId
  , url := req.url
  , method := req.method
  , headers := req.headers
  , body :=
      if req.method ≠ "GET" ∧ req.method ≠ "HEAD" then some req.bodyBytes
      else none }

/-! ## Promise and worker state -/

/-- Settlement state of one intercepted fetch's promise.  An error is
modelled by its message string (`new Error(msg)`). -/
inductive PromiseState where
  | pending
  | resolvedWith (resp : Response)
  | rejectedWith (msg : String)
  deriving DecidableEq, Repr

/-- Worker-side mutable state: the key set of the `pendingRequests` map and
the settlement state of each request's fetch promise (the map's values are
exactly the resolve/reject callbacks of those promises). -/
@[ext]
structure WorkerState where
  inMap : String → Bool
  promise : String → PromiseState

/-- Settle the promise of `rid` to `out` if it is still pending; settling
an already-settled JavaScript promise is a no-op. -/
def settle (s : WorkerState) (rid : String) (out : PromiseState) : WorkerState :=
  match s.promise rid with
  | .pending => { s with promise := fun r => if r = rid then out else s.promise r }
  | _ => s

/-- Map deletion `pendingRequests.delete(requestId)`: removing an absent key leaves the
map unchanged. -/
def mapDelete (s : WorkerState) (rid : String) : WorkerState :=
  { s with inMap := fun r => if r = rid then false else s.inMap r }

/-- Map insertion `pendingRequests.set(requestId, { resolve, reject })` at the start of
the promise executor in `handleRequest`. -/
def startRequest (s : WorkerState) (rid : String) : WorkerState :=
  { s with inMap := fun r => if r = rid then true else s.inMap r }

/-- The outcome the message listener gives a live request: resolve with the
reconstructed `Response` on `success`, else reject with the error string. -/
def messageOutcome (m : FetchResponseMsg) : PromiseState :=
  if m.success then .resolvedWith (responseFromData m.data)
  else .rejectedWith m.error

/-- The worker's `message` event listener: when `event.data.type ===
'FETCH_RESPONSE'` and the map holds `requestId`, settle the stored promise
per `success` and delete the entry; otherwise do nothing. -/
def onMessage (s : WorkerState) (m : FetchResponseMsg) : WorkerState :=
  if m.type = "FETCH_RESPONSE" then
    if s.inMap m.requestId then
      mapDelete (settle s m.requestId (messageOutcome m)) m.requestId
    else s
  else s

/-- The `setTimeout` callback of `handleRequest`:
`pendingRequests.delete(requestId); reject(new Error('Timeout'))`. -/
def onTimeout (s : WorkerState) (rid : String) : WorkerState :=
  settle (mapDelete s rid) rid (.rejectedWith "Timeout")

/-- The `clients.matchAll({type:'window'}).then(...)` callback of
`handleRequest`: with at least one window client, post the message to the
first one; with none, `reject(new Error('No windows available'))` — note
that this path does not delete the map entry.  Returns the new state and
the message posted, if any. -/
def dispatch (s : WorkerState) (rid : String) (msg : FetchRequestMsg)
    (clientCount : Nat) : WorkerState × Option FetchRequestMsg :=
  if clientCount > 0 then (s, some msg)
  else (settle s rid (.rejectedWith "No windows available"), none)

/-- A worker state with an empty pending map and every promise pending. -/
def initialWorkerState : WorkerState :=
  { inMap := fun _ => false, promise := fun _ => .pending }

/-! ## The origin classifier `shouldSkipRequest`

The relevant pieces of a parsed URL, as the JavaScript `URL` object exposes
them: `protocol` keeps its trailing colon ("https:"), `origin` is the
scheme://host[:port] string, `port` is a (possibly empty) string.  The
fields are carried as given; the classifier only ever reads them. -/

structure URLParts where
  href : String
  origin : String
  protocol : String
  hostname : String
  port : String
  pathname : String
  deriving DecidableEq, Repr

/-- The list `const bastyonDomains = ['bastyon.com', 'pocketnet.app', 'localhost']`
from the catch branch of `shouldSkipRequest`. -/
def bastyonDomains : List String :=
  ["bastyon.com", "pocketnet.app", "localhost"]

/-- The list `const skipDomains = [...]` near the end of `shouldSkipRequest`. -/
def skipDomains : List String :=
  ["localhost", "127.0.0.1", "0.0.0.0", "bastyon.com", "pocketnet.app"]

/-- The checks of `shouldSkipRequest` from `url.pathname.includes(...)`
onward, shared by the readable-parent and unreadable-parent paths (in the
source they sit after the try/catch and the `if (parentUrl)` block). -/
def shouldSkipRequestTail (url : URLParts) : Bool :=
  if strIncludes url.pathname "service-worker" ∨ strIncludes url.pathname "sw.js" then
    true
  else if jsStartsWith url.protocol "chrome-extension:"
      ∨ jsStartsWith url.protocol "moz-extension:"
      ∨ jsStartsWith url.protocol "safari-extension:" then
    true
  else if jsStartsWith url.protocol "blob:"
      ∨ jsStartsWith url.protocol "data:"
      ∨ jsStartsWith url.protocol "file:" then
    true
  else if url.hostname = "localhost" ∧ url.port ≠ "" ∧ jsParseIntGt url.port 1024 then
    true
  else if (skipDomains.any fun domain => strIncludes url.hostname domain) then
    true
  else
    false

/-- The filter `parentParts.filter(part => part.length > 2 && urlParts.includes(part))`
from the `if (parentUrl)` block. -/
def sharedSignificantParts (parentHostname urlHostname : String) : List String :=
  (jsSplit parentHostname ".").filter fun part =>
    2 < part.length ∧ (jsSplit urlHostname ".").contains part

/-- The classifier `shouldSkipRequest(url)` from the service worker.  `selfOrigin` is the
worker's `location.origin`; `parent?` is `some p` when reading
`window.parent.location.href` succeeds and parses to `p`, `none` when the
read throws (cross-origin denial), which the source handles in a catch
block that consults `bastyonDomains` and leaves `parentUrl` null. -/
def shouldSkipRequest (selfOrigin : String) (parent? : Option URLParts)
    (url : URLParts) : Bool :=
  if url.origin = selfOrigin then
    true
  else if url.protocol ≠ "http:" ∧ url.protocol ≠ "https:" then
    true
  else
    match parent? with
    | some parentUrl =>
      if url.origin = parentUrl.origin then
        true
      else if url.hostname = parentUrl.hostname then
        true
      else if jsStartsWith url.href parentUrl.origin then
        true
      else if 1 < (sharedSignificantParts parentUrl.hostname url.hostname).length then
        true
      else if jsEndsWith url.hostname ("." ++ parentUrl.hostname)
          ∨ jsEndsWith parentUrl.hostname ("." ++ url.hostname) then
        true
      else
        shouldSkipRequestTail url
    | none =>
      if (bastyonDomains.any fun domain => strIncludes url.hostname domain) then
        true
      else
        shouldSkipRequestTail url

/-! ## The page-side relay (sdkService.ts) -/

/-- A message as the relay sees it: a `type` tag and an opaque payload
(the rest of the structured-clone data, which the relay never inspects). -/
structure RelayMsg where
  type : String
  payload : List (String × String)
  deriving DecidableEq, Repr

/-- Something the relay posts onward. -/
inductive RelayAction where
  | postToParent (data : RelayMsg) (targetOrigin : String)
  | postToController (data : RelayMsg)
  deriving DecidableEq, Repr

/-- The listener `navigator.serviceWorker.addEventListener('message', ...)`: forward
`FETCH_REQUEST`-tagged data verbatim to `window.parent` with target
origin `'*'`; anything else is ignored. -/
def onSwMessage (data : RelayMsg) : Option RelayAction :=
  if data.type = "FETCH_REQUEST" then some (.postToParent data "*")
  else none

/-- The listener `window.addEventListener('message', ...)`: forward `FETCH_RESPONSE`-
tagged data verbatim to `navigator.serviceWorker.controller`; anything
else is ignored. -/
def onWindowMessage (data : RelayMsg) : Option RelayAction :=
  if data.type = "FETCH_RESPONSE" then some (.postToController data)
  else none

/-! ## Service worker registration (sdkService.ts) -/

/-- A `ServiceWorkerRegistration` handle; `activeWorker` records whether
its `.active` slot holds a worker. An `id` keeps distinct handles
distinguishable. -/
structure SWRegistration where
  id : Nat
  activeWorker : Bool
  deriving DecidableEq, Repr

/-- The function `initServiceWorker()` acting on the module-level `swRegistration`
variable.  `attempt` is the outcome the browser would give
`navigator.serviceWorker.register('/miniapp-service-worker.js')`:
`some r` on success, `none` when it rejects (the catch branch logs and
returns null).  The result is `(new swRegistration, returned value,
whether register was called)`. -/
def initServiceWorker (st : Option SWRegistration)
    (attempt : Option SWRegistration) :
    Option SWRegistration × Option SWRegistration × Bool :=
  match st with
  | some r => (some r, some r, false)
  | none =>
    match attempt with
    | some r => (some r, some r, true)
    | none => (none, none, true)

/-- The probe `isServiceWorkerActive(): boolean` — `!!swRegistration?.active`. -/
def isServiceWorkerActive (st : Option SWRegistration) : Bool :=
  match st with
  | some r => r.activeWorker
  | none => false

/-! ## The URL rewriter (urlRewriter.ts) -/

/-- One entry of the server rewrite table. -/
structure Server where
  host : String
  ip : String
  deriving DecidableEq, Repr

/-- The module-level `servers` list: empty in the source (mock, to be
populated from an API in a real implementation). -/
def servers : List Server := []

/-- The lookup `getServer(hostip)`:
`servers.find(s => s.host === hostip || s.ip === hostip)`. -/
def getServer (table : List Server) (hostip : String) : Option Server :=
  table.find? fun s => s.host = hostip ∨ s.ip = hostip

/-- The split `const parts = url.split('://')` before the conditional shift. -/
def urlParts0 (url : String) : List String := jsSplit url "://"

/-- The test `parts.length > 1`: the URL spells out a protocol. -/
def urlHasProto (url : String) : Bool := decide (1 < (urlParts0 url).length)

/-- The value `oldProtocol = parts[0]` when a protocol is present, else the initial
value `'http'`. -/
def urlRawProto (url : String) : String :=
  if urlHasProto url then (urlParts0 url).headD "" else "http"

/-- The flag `secure = oldProtocol === 'https' || oldProtocol === 'wss'` when a
protocol is present, else the initial value `true`. -/
def urlSecure (url : String) : Bool :=
  if urlHasProto url then urlRawProto url == "https" || urlRawProto url == "wss"
  else true

/-- The value of `oldProtocol` after the https→http / wss→ws / '.'→'' rewrites. -/
def urlOldProtocol (url : String) : String :=
  if urlHasProto url then
    if urlRawProto url = "https" then "http"
    else if urlRawProto url = "wss" then "ws"
    else if urlRawProto url = "." then ""
    else urlRawProto url
  else "http"

/-- The value `rest = parts.join('')` after the conditional `parts.shift()`. -/
def urlRest (url : String) : String :=
  String.join (if urlHasProto url then (urlParts0 url).tail else urlParts0 url)

/-- The split `restParts = rest.split('/')`. -/
def urlRestParts (url : String) : List String := jsSplit (urlRest url) "/"

/-- The value `hostip = restParts[0]`: the host part `urlRewriter` keys the server
table on. -/
def urlHostip (url : String) : String := (urlRestParts url).headD ""

/-- The value `path = restParts.join('/')` after `restParts.shift()`. -/
def urlPath (url : String) : String :=
  String.intercalate "/" (urlRestParts url).tail

/-- The value `formattedPath = path ? '/'+path : ''`. -/
def urlFormattedPath (url : String) : String :=
  if urlPath url ≠ "" then "/" ++ urlPath url else ""

/-- The function `urlRewriter(url)` from src/src/helpers/urlRewriter.ts, with the
server table passed explicitly (the source closes over the module-level
`servers`); each JavaScript local is the helper definition of the same
name above.  In the found-server branch the source's `useIp` is the
constant `true`, which forces `secure = false`, so the protocol never
regains its trailing "s" and the host is replaced by `server.ip`.
Nothing in the body can throw, so the catch branch that returns the
original URL is unreachable and not modelled. -/
def urlRewriter (table : List Server) (url : String) : String :=
  if url = "" then url
  else
    match getServer table (urlHostip url) with
    | none =>
      if ¬ strIncludes (urlHostip url) "." then url
      else
        (if urlSecure url then urlOldProtocol url ++ "s" else urlOldProtocol url)
          ++ "://" ++ urlHostip url ++ urlFormattedPath url
    | some server =>
      urlOldProtocol url ++ "://" ++ server.ip ++ urlFormattedPath url

/-! ## Helper lemmas about the worker-state primitives -/

theorem settle_inMap (s : WorkerState) (rid : String) (out : PromiseState) :
    (settle s rid out).inMap = s.inMap := by
  unfold settle
  cases h : s.promise rid <;> rfl

theorem settle_promise_self (s : WorkerState) (rid : String) (out : PromiseState)
    (h : s.promise rid = .pending) : (settle s rid out).promise rid = out := by
  unfold settle
  rw [h]
  simp

theorem settle_of_settled (s : WorkerState) (rid : String) (out : PromiseState)
    (h : s.promise rid ≠ .pending) : settle s rid out = s := by
  unfold settle
  cases hp : s.promise rid
  · exact absurd hp h
  · rfl
  · rfl

theorem mapDelete_inMap_self (s : WorkerState) (rid : String) :
    (mapDelete s rid).inMap rid = false := by
  unfold mapDelete
  simp

theorem mapDelete_promise (s : WorkerState) (rid : String) :
    (mapDelete s rid).promise = s.promise := rfl

theorem mapDelete_of_absent (s : WorkerState) (rid : String)
    (h : s.inMap rid = false) : mapDelete s rid = s := by
  unfold mapDelete
  ext r
  · by_cases hr : r = rid
    · subst hr; simp [h]
    · simp [hr]
  · rfl

theorem messageOutcome_ne_pending (m : FetchResponseMsg) :
    messageOutcome m ≠ .pending := by
  unfold messageOutcome
  cases m.success <;> simp

/-! ## Claim theorems -/

/-- Claim C5: for every proxied request, the serialized `FETCH_REQUEST`
message carries the request's url, method and header map, and carries
`body = null` when the method is GET or HEAD; for every other method it
carries the full request body read into a byte array. -/
theorem C5_fetch_request_serialization (rid : String) (req : Request) :
    (serializeRequest rid req).type = "FETCH_REQUEST"
    ∧ (serializeRequest rid req).requestId = rid
    ∧ (serializeRequest rid req).url = req.url
    ∧ (serializeRequest rid req).method = req.method
    ∧ (serializeRequest rid req).headers = req.headers
    ∧ (req.method = "GET" ∨ req.method = "HEAD" →
        (serializeRequest rid req).body = none)
    ∧ (req.method ≠ "GET" → req.method ≠ "HEAD" →
        (serializeRequest rid req).body = some req.bodyBytes) := by
  refine ⟨rfl, rfl, rfl, rfl, rfl, fun h => ?_, fun h1 h2 => ?_⟩
  · rcases h with h | h <;> simp [serializeRequest, h]
  · simp [serializeRequest, h1, h2]

/-- Concrete instances of C5: a GET request serializes with a null body,
a POST request with its byte array. -/
theorem C5_fetch_request_serialization_witness :
    (serializeRequest "r1"
        ⟨"https://api.example.com/u", "GET", [("a", "b")], [7, 8]⟩).body = none
    ∧ (serializeRequest "r2"
        ⟨"https://api.example.com/u", "POST", [("a", "b")], [7, 8]⟩).body
        = some [7, 8] :=
  ⟨(C5_fetch_request_serialization "r1"
      ⟨"https://api.example.com/u", "GET", [("a", "b")], [7, 8]⟩).2.2.2.2.2.1
      (Or.inl rfl),
   (C5_fetch_request_serialization "r2"
      ⟨"https://api.example.com/u", "POST", [("a", "b")], [7, 8]⟩).2.2.2.2.2.2
      (by decide) (by decide)⟩

/-- Claim C8: the relay forwards `FETCH_REQUEST`-tagged data from the
service worker verbatim to the parent window with an any-origin post,
forwards `FETCH_RESPONSE`-tagged data from the window verbatim to the
controller, and forwards nothing else in either direction. -/
theorem C8_relay_forwarding (d : RelayMsg) :
    (d.type = "FETCH_REQUEST" → onSwMessage d = some (.postToParent d "*"))
    ∧ (d.type ≠ "FETCH_REQUEST" → onSwMessage d = none)
    ∧ (d.type = "FETCH_RESPONSE" → onWindowMessage d = some (.postToController d))
    ∧ (d.type ≠ "FETCH_RESPONSE" → onWindowMessage d = none) := by
  refine ⟨fun h => ?_, fun h => ?_, fun h => ?_, fun h => ?_⟩ <;>
    simp [onSwMessage, onWindowMessage, h]

/-- Concrete instances of C8: a request message goes to the parent with
origin "*", a response message goes to the controller, and an
unrelated tag goes nowhere. -/
theorem C8_relay_forwarding_witness :
    onSwMessage ⟨"FETCH_REQUEST", [("k", "v")]⟩
      = some (.postToParent ⟨"FETCH_REQUEST", [("k", "v")]⟩ "*")
    ∧ onWindowMessage ⟨"FETCH_RESPONSE", [("k", "v")]⟩
      = some (.postToController ⟨"FETCH_RESPONSE", [("k", "v")]⟩)
    ∧ onSwMessage ⟨"OTHER", []⟩ = none
    ∧ onWindowMessage ⟨"OTHER", []⟩ = none :=
  ⟨(C8_relay_forwarding ⟨"FETCH_REQUEST", [("k", "v")]⟩).1 rfl,
   (C8_relay_forwarding ⟨"FETCH_RESPONSE", [("k", "v")]⟩).2.2.1 rfl,
   (C8_relay_forwarding ⟨"OTHER", []⟩).2.1 (by decide),
   (C8_relay_forwarding ⟨"OTHER", []⟩).2.2.2 (by decide)⟩

/-- Claim C9: `initServiceWorker` is idempotent — after a first call has
produced a registration, a second call returns that same handle without
calling `register` again — and on a failed registration attempt it
returns null instead of throwing; `isServiceWorkerActive` is true exactly
when a registration exists and has an active worker. -/
theorem C9_init_idempotent_and_safe (r : SWRegistration)
    (st : Option SWRegistration) :
    initServiceWorker none (some r) = (some r, some r, true)
    ∧ (∀ attempt, initServiceWorker (some r) attempt = (some r, some r, false))
    ∧ initServiceWorker none none = (none, none, true)
    ∧ (isServiceWorkerActive st = true
        ↔ ∃ reg, st = some reg ∧ reg.activeWorker = true) := by
  refine ⟨rfl, fun _ => rfl, rfl, ?_⟩
  cases st with
  | none => simp [isServiceWorkerActive]
  | some reg => simp [isServiceWorkerActive]

/-- Concrete instance of C9: with a live registration holding an active
worker, a repeat call returns it without registering and the activity
probe reports true. -/
theorem C9_init_idempotent_and_safe_witness :
    initServiceWorker (some ⟨0, true⟩) none = (some ⟨0, true⟩, some ⟨0, true⟩, false)
    ∧ isServiceWorkerActive (some ⟨0, true⟩) = true :=
  ⟨(C9_init_idempotent_and_safe ⟨0, true⟩ (some ⟨0, true⟩)).2.1 none,
   (C9_init_idempotent_and_safe ⟨0, true⟩ (some ⟨0, true⟩)).2.2.2.mpr
      ⟨⟨0, true⟩, rfl, rfl⟩⟩

/-- Claim C4: a `FETCH_RESPONSE` whose `requestId` matches a live
PendingRequest resolves the original fetch with the `Response`
reconstructed from `data` when `success` is true, rejects it with the
message's error string when `success` is false, and in both cases removes
the PendingRequest from the map. -/
theorem C4_matching_response_settles (s : WorkerState) (m : FetchResponseMsg)
    (htype : m.type = "FETCH_RESPONSE")
    (hmap : s.inMap m.requestId = true)
    (hpend : s.promise m.requestId = .pending) :
    (onMessage s m).inMap m.requestId = false
    ∧ (m.success = true →
        (onMessage s m).promise m.requestId
          = .resolvedWith (responseFromData m.data))
    ∧ (m.success = false →
        (onMessage s m).promise m.requestId = .rejectedWith m.error) := by
  unfold onMessage
  rw [if_pos htype, if_pos hmap]
  refine ⟨mapDelete_inMap_self _ _, fun hs => ?_, fun hs => ?_⟩ <;>
    rw [mapDelete_promise, settle_promise_self _ _ _ hpend] <;>
    simp [messageOutcome, hs]

/-- Concrete instances of C4: a successful message resolves with the
reconstructed response and clears the entry; a failure message rejects
with the carried error string. -/
theorem C4_matching_response_settles_witness :
    (onMessage (startRequest initialWorkerState "r1")
        ⟨"FETCH_RESPONSE", "r1", true, ⟨[104, 105], 200, "OK", [("c", "t")]⟩, ""⟩).inMap "r1"
      = false
    ∧ (onMessage (startRequest initialWorkerState "r1")
        ⟨"FETCH_RESPONSE", "r1", true, ⟨[104, 105], 200, "OK", [("c", "t")]⟩, ""⟩).promise "r1"
      = .resolvedWith ⟨[104, 105], 200, "OK", [("c", "t")]⟩
    ∧ (onMessage (startRequest initialWorkerState "r1")
        ⟨"FETCH_RESPONSE", "r1", false, ⟨[], 0, "", []⟩, "boom"⟩).promise "r1"
      = .rejectedWith "boom" := by
  have hOk := C4_matching_response_settles (startRequest initialWorkerState "r1")
    ⟨"FETCH_RESPONSE", "r1", true, ⟨[104, 105], 200, "OK", [("c", "t")]⟩, ""⟩
    rfl (by decide) rfl
  have hErr := C4_matching_response_settles (startRequest initialWorkerState "r1")
    ⟨"FETCH_RESPONSE", "r1", false, ⟨[], 0, "", []⟩, "boom"⟩
    rfl (by decide) rfl
  exact ⟨hOk.1, hOk.2.1 rfl, hErr.2.2 rfl⟩

/-- Claim C2: when both a timeout and a matching `FETCH_RESPONSE` occur for
the same live `requestId`, in either order, the first event settles the
fetch promise and removes the PendingRequest, and the second event is a
complete no-op: it settles nothing and leaves the worker state (map
included) unchanged. -/
theorem C2_settle_exactly_once (s : WorkerState) (m : FetchResponseMsg)
    (rid : String)
    (htype : m.type = "FETCH_RESPONSE")
    (hrid : m.requestId = rid)
    (hmap : s.inMap rid = true)
    (hpend : s.promise rid = .pending) :
    ((onMessage s m).promise rid = messageOutcome m
      ∧ (onMessage s m).inMap rid = false
      ∧ onTimeout (onMessage s m) rid = onMessage s m)
    ∧ ((onTimeout s rid).promise rid = .rejectedWith "Timeout"
      ∧ (onTimeout s rid).inMap rid = false
      ∧ onMessage (onTimeout s rid) m = onTimeout s rid) := by
  subst hrid
  have hmsg : onMessage s m
      = mapDelete (settle s m.requestId (messageOutcome m)) m.requestId := by
    unfold onMessage
    rw [if_pos htype, if_pos hmap]
  have hmsg_promise : (onMessage s m).promise m.requestId = messageOutcome m := by
    rw [hmsg, mapDelete_promise, settle_promise_self _ _ _ hpend]
  have hmsg_inMap : (onMessage s m).inMap m.requestId = false := by
    rw [hmsg]; exact mapDelete_inMap_self _ _
  have htime_promise : (onTimeout s m.requestId).promise m.requestId
      = .rejectedWith "Timeout" := by
    unfold onTimeout
    rw [settle_promise_self _ _ _ (by rw [mapDelete_promise]; exact hpend)]
  have htime_inMap : (onTimeout s m.requestId).inMap m.requestId = false := by
    unfold onTimeout
    rw [settle_inMap]
    exact mapDelete_inMap_self _ _
  refine ⟨⟨hmsg_promise, hmsg_inMap, ?_⟩, ⟨htime_promise, htime_inMap, ?_⟩⟩
  · -- a timeout after the message deletes an absent key and rejects a
    -- settled promise: both are no-ops
    unfold onTimeout
    rw [mapDelete_of_absent _ _ hmsg_inMap]
    exact settle_of_settled _ _ _
      (by rw [hmsg_promise]; exact messageOutcome_ne_pending m)
  · -- a message after the timeout finds no map entry and returns the
    -- state untouched
    unfold onMessage
    rw [if_pos htype, if_neg]
    simp [htime_inMap]

/-- Concrete instances of C2: with a live request "r1", timeout after
message and message after timeout each leave the state of the first
event unchanged. -/
theorem C2_settle_exactly_once_witness :
    (onTimeout (onMessage (startRequest initialWorkerState "r1")
        ⟨"FETCH_RESPONSE", "r1", true, ⟨[1], 200, "OK", []⟩, ""⟩) "r1"
      = onMessage (startRequest initialWorkerState "r1")
        ⟨"FETCH_RESPONSE", "r1", true, ⟨[1], 200, "OK", []⟩, ""⟩)
    ∧ (onMessage (onTimeout (startRequest initialWorkerState "r1") "r1")
        ⟨"FETCH_RESPONSE", "r1", true, ⟨[1], 200, "OK", []⟩, ""⟩
      = onTimeout (startRequest initialWorkerState "r1") "r1") := by
  have h := C2_settle_exactly_once (startRequest initialWorkerState "r1")
    ⟨"FETCH_RESPONSE", "r1", true, ⟨[1], 200, "OK", []⟩, ""⟩ "r1"
    rfl rfl (by decide) rfl
  exact ⟨h.1.2.2, h.2.2.2⟩

/-- Claim C1 is false as stated: with zero window clients the dispatch
step does reject the fetch promise with "No windows available", but it
does not delete the PendingRequest — at the concrete request "r1" the
entry is still in the map right after the rejection. -/
theorem C1_counterexample_dangling_entry :
    ((dispatch (startRequest initialWorkerState "r1") "r1"
        (serializeRequest "r1" ⟨"https://api.example.com/u", "GET", [], []⟩)
        0).1.promise "r1" = .rejectedWith "No windows available")
    ∧ ((dispatch (startRequest initialWorkerState "r1") "r1"
        (serializeRequest "r1" ⟨"https://api.example.com/u", "GET", [], []⟩)
        0).1.inMap "r1" = true) := by
  constructor <;> decide

/-- Claim C1 amended: when zero window clients are available at dispatch
time, the dispatch step rejects the pending fetch promise with "No windows
available" and posts no message, but the PendingRequest entry stays in the
pending-request map — it is removed only when the request's timeout later
fires. -/
theorem C1_no_windows_rejects_entry_remains (s : WorkerState) (rid : String)
    (msg : FetchRequestMsg)
    (hpend : s.promise rid = .pending) :
    ((dispatch s rid msg 0).1.promise rid = .rejectedWith "No windows available")
    ∧ ((dispatch s rid msg 0).1.inMap = s.inMap)
    ∧ ((dispatch s rid msg 0).2 = none)
    ∧ ((onTimeout (dispatch s rid msg 0).1 rid).inMap rid = false) := by
  unfold dispatch
  have h0 : ¬ ((0 : Nat) > 0) := by decide
  rw [if_neg h0]
  refine ⟨settle_promise_self _ _ _ hpend, settle_inMap _ _ _, rfl, ?_⟩
  unfold onTimeout
  rw [settle_inMap]
  exact mapDelete_inMap_self _ _

/-- Concrete instance of the amended C1 at the request "r2". -/
theorem C1_no_windows_rejects_entry_remains_witness :
    ((dispatch (startRequest initialWorkerState "r2") "r2"
        (serializeRequest "r2" ⟨"https://api.example.com/v", "GET", [], []⟩)
        0).1.promise "r2" = .rejectedWith "No windows available")
    ∧ ((dispatch (startRequest initialWorkerState "r2") "r2"
        (serializeRequest "r2" ⟨"https://api.example.com/v", "GET", [], []⟩)
        0).1.inMap = (startRequest initialWorkerState "r2").inMap) := by
  have h := C1_no_windows_rejects_entry_remains
    (startRequest initialWorkerState "r2") "r2"
    (serializeRequest "r2" ⟨"https://api.example.com/v", "GET", [], []⟩) rfl
  exact ⟨h.1, h.2.1⟩

/-! ## Helper lemmas about the classifier -/

theorem skipAny_of_bastyonAny (host : String)
    (h : (bastyonDomains.any fun domain => strIncludes host domain) = true) :
    (skipDomains.any fun domain => strIncludes host domain) = true := by
  simp only [bastyonDomains, skipDomains, List.any_cons, List.any_nil,
    Bool.or_eq_true, Bool.or_false] at h ⊢
  tauto

theorem tail_skips_of_skipAny (url : URLParts)
    (h : (skipDomains.any fun domain => strIncludes url.hostname domain) = true) :
    shouldSkipRequestTail url = true := by
  unfold shouldSkipRequestTail
  split
  · rfl
  split
  · rfl
  split
  · rfl
  split
  · rfl
  rfl

theorem shouldSkipRequest_some_eq (selfOrigin : String) (parentUrl url : URLParts) :
    shouldSkipRequest selfOrigin (some parentUrl) url
      = (if url.origin = selfOrigin then true
        else if url.protocol ≠ "http:" ∧ url.protocol ≠ "https:" then true
        else if url.origin = parentUrl.origin then true
        else if url.hostname = parentUrl.hostname then true
        else if jsStartsWith url.href parentUrl.origin then true
        else if 1 < (sharedSignificantParts parentUrl.hostname url.hostname).length then true
        else if jsEndsWith url.hostname ("." ++ parentUrl.hostname)
            ∨ jsEndsWith parentUrl.hostname ("." ++ url.hostname) then true
        else shouldSkipRequestTail url) := rfl

theorem shouldSkipRequest_none_eq (selfOrigin : String) (url : URLParts) :
    shouldSkipRequest selfOrigin none url
      = (if url.origin = selfOrigin then true
        else if url.protocol ≠ "http:" ∧ url.protocol ≠ "https:" then true
        else if (bastyonDomains.any fun domain => strIncludes url.hostname domain) then true
        else shouldSkipRequestTail url) := rfl

theorem tail_false_of_clean (url : URLParts)
    (hproto : url.protocol = "http:" ∨ url.protocol = "https:")
    (hpath1 : strIncludes url.pathname "service-worker" = false)
    (hpath2 : strIncludes url.pathname "sw.js" = false)
    (hskip : (skipDomains.any fun domain => strIncludes url.hostname domain) = false) :
    shouldSkipRequestTail url = false := by
  have hlocal : strIncludes url.hostname "localhost" = false := by
    cases h : strIncludes url.hostname "localhost"
    · rfl
    · exfalso
      have : (skipDomains.any fun domain => strIncludes url.hostname domain) = true := by
        simp only [skipDomains, List.any_cons, Bool.or_eq_true, h]
        tauto
      rw [hskip] at this
      cases this
  have c1 : ¬(strIncludes url.pathname "service-worker" = true
      ∨ strIncludes url.pathname "sw.js" = true) := by
    rintro (hc | hc)
    · rw [hpath1] at hc; cases hc
    · rw [hpath2] at hc; cases hc
  have c2 : ¬(jsStartsWith url.protocol "chrome-extension:" = true
      ∨ jsStartsWith url.protocol "moz-extension:" = true
      ∨ jsStartsWith url.protocol "safari-extension:" = true) := by
    rcases hproto with h | h <;> rw [h] <;> rintro (hc | hc | hc) <;>
      exact absurd hc (by decide)
  have c3 : ¬(jsStartsWith url.protocol "blob:" = true
      ∨ jsStartsWith url.protocol "data:" = true
      ∨ jsStartsWith url.protocol "file:" = true) := by
    rcases hproto with h | h <;> rw [h] <;> rintro (hc | hc | hc) <;>
      exact absurd hc (by decide)
  have c4 : ¬(url.hostname = "localhost" ∧ url.port ≠ ""
      ∧ jsParseIntGt url.port 1024 = true) := by
    rintro ⟨hhost, -, -⟩
    rw [hhost] at hlocal
    exact absurd hlocal (by decide)
  have c5 : ¬((skipDomains.any fun domain => strIncludes url.hostname domain) = true) := by
    rw [hskip]
    exact Bool.false_ne_true
  unfold shouldSkipRequestTail
  rw [if_neg c1, if_neg c2, if_neg c3, if_neg c4, if_neg c5]

/-- Claim C6: with a readable parent URL, the classifier bypasses whenever
the target hostname equals the parent hostname, one hostname is a strict
subdomain of the other, or the hostnames share more than one significant
(longer-than-2) domain label. -/
theorem C6_parent_similarity_bypasses (selfOrigin : String)
    (parentUrl url : URLParts)
    (h : url.hostname = parentUrl.hostname
      ∨ jsEndsWith url.hostname ("." ++ parentUrl.hostname) = true
      ∨ jsEndsWith parentUrl.hostname ("." ++ url.hostname) = true
      ∨ 1 < (sharedSignificantParts parentUrl.hostname url.hostname).length) :
    shouldSkipRequest selfOrigin (some parentUrl) url = true := by
  rw [shouldSkipRequest_some_eq]
  split
  · rfl
  split
  · rfl
  split
  · rfl
  split
  · rfl
  split
  · rfl
  split
  · rfl
  split
  · rfl
  rename_i hselforig hproto hpar ho hhref hinter hends
  rcases h with h | h | h | h
  · exact absurd h ho
  · exact absurd (Or.inl h) hends
  · exact absurd (Or.inr h) hends
  · exact absurd h hinter

/-- Concrete instance of C6: a target on a strict subdomain of the parent
hostname is bypassed. -/
theorem C6_parent_similarity_bypasses_witness :
    shouldSkipRequest "https://self.example"
      (some ⟨"https://host.example/", "https://host.example", "https:",
        "host.example", "", "/"⟩)
      ⟨"https://sub.host.example/api", "https://sub.host.example", "https:",
        "sub.host.example", "", "/api"⟩ = true :=
  C6_parent_similarity_bypasses "https://self.example"
    ⟨"https://host.example/", "https://host.example", "https:",
      "host.example", "", "/"⟩
    ⟨"https://sub.host.example/api", "https://sub.host.example", "https:",
      "sub.host.example", "", "/api"⟩
    (Or.inr (Or.inl (by decide)))

/-- Claim C7: the skip-domain rules match by substring — any http/https
URL whose hostname merely contains one of the five skip-list entries is
bypassed (never proxied), with or without a readable parent URL. -/
theorem C7_substring_match_bypasses (selfOrigin : String)
    (parent? : Option URLParts) (url : URLParts)
    (_hproto : url.protocol = "http:" ∨ url.protocol = "https:")
    (h : (skipDomains.any fun domain => strIncludes url.hostname domain) = true) :
    shouldSkipRequest selfOrigin parent? url = true := by
  cases parent? with
  | some parentUrl =>
    rw [shouldSkipRequest_some_eq]
    split
    · rfl
    split
    · rfl
    split
    · rfl
    split
    · rfl
    split
    · rfl
    split
    · rfl
    split
    · rfl
    exact tail_skips_of_skipAny url h
  | none =>
    rw [shouldSkipRequest_none_eq]
    split
    · rfl
    split
    · rfl
    split
    · rfl
    exact tail_skips_of_skipAny url h

/-- Concrete instance of C7: the hostname "bastyon.com.evil.example"
contains "bastyon.com" as a substring, so the classifier bypasses it both
with an unreadable parent and under an unrelated readable parent. -/
theorem C7_substring_match_bypasses_witness :
    shouldSkipRequest "https://self.example" none
      ⟨"https://bastyon.com.evil.example/x", "https://bastyon.com.evil.example",
        "https:", "bastyon.com.evil.example", "", "/x"⟩ = true
    ∧ shouldSkipRequest "https://self.example"
      (some ⟨"https://host.example/", "https://host.example", "https:",
        "host.example", "", "/"⟩)
      ⟨"https://bastyon.com.evil.example/x", "https://bastyon.com.evil.example",
        "https:", "bastyon.com.evil.example", "", "/x"⟩ = true :=
  ⟨C7_substring_match_bypasses "https://self.example" none
      ⟨"https://bastyon.com.evil.example/x", "https://bastyon.com.evil.example",
        "https:", "bastyon.com.evil.example", "", "/x"⟩
      (Or.inr rfl) (by decide),
   C7_substring_match_bypasses "https://self.example"
      (some ⟨"https://host.example/", "https://host.example", "https:",
        "host.example", "", "/"⟩)
      ⟨"https://bastyon.com.evil.example/x", "https://bastyon.com.evil.example",
        "https:", "bastyon.com.evil.example", "", "/x"⟩
      (Or.inr rfl) (by decide)⟩

/-- Claim C10: an input URL whose host part contains no '.' and matches no
entry of the server rewrite table is returned by `urlRewriter` unchanged. -/
theorem C10_urlRewriter_no_dot_unchanged (table : List Server) (url : String)
    (hdot : strIncludes (urlHostip url) "." = false)
    (hsrv : getServer table (urlHostip url) = none) :
    urlRewriter table url = url := by
  unfold urlRewriter
  by_cases h0 : url = ""
  · rw [if_pos h0]
  · rw [if_neg h0, hsrv]
    show (if ¬ strIncludes (urlHostip url) "." = true then url
      else (if urlSecure url then urlOldProtocol url ++ "s" else urlOldProtocol url)
        ++ "://" ++ urlHostip url ++ urlFormattedPath url) = url
    rw [hdot, if_pos (by decide : ¬false = true)]

/-- Concrete instance of C10: "http://intranet/page" has host "intranet"
with no dot and no table entry, and is returned unchanged. -/
theorem C10_urlRewriter_no_dot_unchanged_witness :
    urlRewriter servers "http://intranet/page" = "http://intranet/page" :=
  C10_urlRewriter_no_dot_unchanged servers "http://intranet/page"
    (by decide) rfl

/-- Claim C3: for an http/https target that is not same-origin with the
interceptor, with unreadable parent URL and a path free of the
service-worker bootstrap markers, the classifier bypasses exactly when
the hostname contains one of the five fixed skip-list substrings. -/
theorem C3_unreadable_parent_skiplist_iff (selfOrigin : String) (url : URLParts)
    (horig : url.origin ≠ selfOrigin)
    (hproto : url.protocol = "http:" ∨ url.protocol = "https:")
    (hpath1 : strIncludes url.pathname "service-worker" = false)
    (hpath2 : strIncludes url.pathname "sw.js" = false) :
    shouldSkipRequest selfOrigin none url = true
      ↔ (skipDomains.any fun domain => strIncludes url.hostname domain) = true := by
  rw [shouldSkipRequest_none_eq]
  rw [if_neg horig, if_neg (by rcases hproto with h | h <;> simp [h])]
  by_cases hb : (bastyonDomains.any fun domain => strIncludes url.hostname domain) = true
  · rw [if_pos hb]
    exact ⟨fun _ => skipAny_of_bastyonAny url.hostname hb, fun _ => rfl⟩
  · rw [if_neg hb]
    by_cases hs : (skipDomains.any fun domain => strIncludes url.hostname domain) = true
    · rw [tail_skips_of_skipAny url hs, hs]
    · have hs' : (skipDomains.any fun domain => strIncludes url.hostname domain)
          = false := by
        cases hv : skipDomains.any fun domain => strIncludes url.hostname domain
        · rfl
        · exact absurd hv hs
      rw [tail_false_of_clean url hproto hpath1 hpath2 hs']
      simp [hs']

/-- Concrete instances of C3: with unreadable parent, a third-party API
host is proxied (bypass=false) while a host containing "pocketnet.app" is
bypassed. -/
theorem C3_unreadable_parent_skiplist_iff_witness :
    shouldSkipRequest "https://self.example" none
      ⟨"https://api.example.com/users/1", "https://api.example.com", "https:",
        "api.example.com", "", "/users/1"⟩ = false
    ∧ shouldSkipRequest "https://self.example" none
      ⟨"https://cdn.pocketnet.app/img", "https://cdn.pocketnet.app", "https:",
        "cdn.pocketnet.app", "", "/img"⟩ = true := by
  constructor
  · have h := C3_unreadable_parent_skiplist_iff "https://self.example"
      ⟨"https://api.example.com/users/1", "https://api.example.com", "https:",
        "api.example.com", "", "/users/1"⟩
      (by decide) (Or.inr rfl) (by decide) (by decide)
    have hfalse : ¬ ((skipDomains.any fun domain =>
        strIncludes "api.example.com" domain) = true) := by decide
    cases hres : shouldSkipRequest "https://self.example" none
      ⟨"https://api.example.com/users/1", "https://api.example.com", "https:",
        "api.example.com", "", "/users/1"⟩
    · rfl
    · exact absurd (h.mp hres) hfalse
  · exact (C3_unreadable_parent_skiplist_iff "https://self.example"
      ⟨"https://cdn.pocketnet.app/img", "https://cdn.pocketnet.app", "https:",
        "cdn.pocketnet.app", "", "/img"⟩
      (by decide) (Or.inr rfl) (by decide) (by decide)).mpr (by decide)

end Bshorts
